import Mathlib

/-!
Shallow embedding of `subaligner/trainer.py` (class `Trainer`): the training
orchestration pipeline — branch decision in `Trainer.train`, the concurrent
extraction coordinator `Trainer.__extract_data_and_label_from_avs`, the
per-sample task `Trainer.__extract_in_multithreads`, and the in-memory
corpus transforms (permutation, rotation, zero-centering).

External collaborators (`Network`, `MediaHelper`, the feature embedder,
`h5py`, `numpy`) are modelled by their observable behaviour at the call
sites in `trainer.py`: fallible calls return `Except`, and the numpy
operations used by the trainer (`concatenate`, fancy indexing, `rot90`,
mean subtraction) are given executable definitions over rational matrices.
-/

namespace Subaligner

/-- Python exceptions that appear in the control flow of the trainer.
`unsupportedFormat` and `terminal` are the two recognized domain failures
(`UnsupportedFormatException`, `TerminalException`); `unboundLocal` is
the Python `UnboundLocalError` for reading a never-assigned local;
`valueError` is what `np.concatenate` raises on an empty list and what
`ThreadPoolExecutor` raises on a non-positive worker count;
`notImplementedError` models `NotImplementedError`;
`attributeError` models `AttributeError`. -/
inductive PyExc where
  | unsupportedFormat
  | terminal
  | other
  | unboundLocal
  | valueError
  | notImplementedError
  | attributeError
  deriving DecidableEq, Repr

/-- Whether an exception is caught by the first handler
`except (UnsupportedFormatException, TerminalException)` in
`Trainer.__extract_in_multithreads` (trainer.py line 244). -/
def PyExc.recognized : PyExc → Bool
  | .unsupportedFormat => true
  | .terminal => true
  | _ => false

/-! ## Branch decision in `Trainer.train` (trainer.py line 76) -/

/-- The two mutually exclusive branches of `Trainer.train`. -/
inductive TrainBranch where
  | resumeFromDump
  | freshExtraction
  deriving DecidableEq, Repr

/-- Branch decision of `Trainer.train`, line 76:
`if av_file_paths is None or subtitle_file_paths is None` selects the
resume-from-dump branch; otherwise the fresh-extraction branch runs.
A path list is `none` when the Python argument is `None`, and
`some l` when it is an actual list `l` (possibly empty). -/
def trainBranch (av_file_paths subtitle_file_paths : Option (List String)) :
    TrainBranch :=
  if av_file_paths = none ∨ subtitle_file_paths = none then
    .resumeFromDump
  else
    .freshExtraction

/-- Phrase used by the spec for claim C1: a path-list argument that is
"absent/empty", i.e. either `None` or an empty list. -/
def absentOrEmpty (o : Option (List String)) : Bool :=
  (o.getD []).isEmpty

/-! ## Immutability of `Trainer` objects (trainer.py lines 25–42)

`Trainer.__init__` defines `__setattr__` and `__delattr__` as *local*
functions inside the initialiser body; they are never bound to the class
or to the instance, so the Python special-method lookup (which consults the
type, not locals of `__init__`) never finds them. We model attribute
assignment/deletion on a `Trainer` instance by the Python semantics: a
user-defined `__setattr__`/`__delattr__` is used only when it is an
attribute of the class; otherwise the default `object` behaviour mutates
the instance dictionary. -/

/-- The attribute names bound in the class body of `Trainer`
(after the Python name mangling of double-underscore names).
`__setattr__` and `__delattr__` are *not* among them: the two `def`s at
trainer.py lines 38–42 are local to `__init__`. -/
def trainerClassAttrs : List String :=
  ["_Trainer__LOGGER", "_Trainer__MAX_BYTES", "__init__", "train",
   "_Trainer__extract_data_and_label_from_avs",
   "_Trainer__extract_in_multithreads",
   "_Trainer__convert_to_pb_model", "_Trainer__create_saved_model"]

/-- Update one key of an instance dictionary. -/
def dictSet (d : List (String × Nat)) (k : String) (v : Nat) :
    List (String × Nat) :=
  if d.any (fun p => p.1 = k) then
    d.map (fun p => if p.1 = k then (k, v) else p)
  else
    d ++ [(k, v)]

/-- Python semantics of `obj.name = v` for an instance of a class whose
class-body attribute names are `classAttrs`: a class-level `__setattr__`
intercepts (the one of the trainer would raise `NotImplementedError`); otherwise
the default `object.__setattr__` updates the instance dictionary. -/
def pySetAttr (classAttrs : List String) (inst : List (String × Nat))
    (name : String) (v : Nat) : Except PyExc (List (String × Nat)) :=
  if classAttrs.contains "__setattr__" then
    .error .notImplementedError
  else
    .ok (dictSet inst name v)

/-- Python semantics of `del obj.name`: a class-level `__delattr__`
intercepts (the one of the trainer would raise `NotImplementedError`); otherwise
the default behaviour removes the key, raising `AttributeError` when it
is absent. -/
def pyDelAttr (classAttrs : List String) (inst : List (String × Nat))
    (name : String) : Except PyExc (List (String × Nat)) :=
  if classAttrs.contains "__delattr__" then
    .error .notImplementedError
  else if inst.any (fun p => p.1 = name) then
    .ok (inst.filter (fun p => p.1 ≠ name))
  else
    .error .attributeError

/-! ## Worker count (trainer.py line 173)

`max_workers = int(os.getenv("MAX_WORKERS", mp.cpu_count() / 2))`:
when the `MAX_WORKERS` environment variable is set, `int` parses it;
otherwise the default is the true division `cpu_count / 2`, truncated
toward zero by `int` — i.e. `⌊cpu_count / 2⌋` for the positive counts, with
no lower bound. -/

/-- Worker count for the extraction pool. `override` is the parsed value
of the `MAX_WORKERS` environment variable when set. -/
def maxWorkers (override : Option Nat) (cpuCount : Nat) : Nat :=
  match override with
  | some n => n
  | none => cpuCount / 2

/-- Construction of `concurrent.futures.ThreadPoolExecutor(max_workers=n)`
raises `ValueError` when `n <= 0`. -/
def threadPoolExecutorInit (n : Nat) : Except PyExc Unit :=
  if n = 0 then .error .valueError else .ok ()

/-! ## Per-sample extraction task (trainer.py lines 218–269) -/

/-- Observable behaviour of the external collaborators called by
`Trainer.__extract_in_multithreads` during one run. -/
structure TaskEnv (F L : Type) where
  /-- The test `os.path.splitext(p)[1] in MediaHelper.AUDIO_FILE_EXTENSION`
  (trainer.py lines 221 and 224). -/
  isAudioPath : String → Bool
  /-- The call `MediaHelper.extract_audio(p, True, 16000)` (line 226): the
  produced audio path, or the exception the call raises. -/
  extractAudio : String → Except PyExc String
  /-- The call `self.__feature_embedder.extract_data_and_label_from_audio(audio,
  subtitle, subtitles=None, ignore_sound_effects=True)` (line 237). -/
  extractDataAndLabelFromAudio : String → String → Except PyExc (F × L)

/-- Error-level log records emitted by one extraction task:
`excLog` is the "Exception:"/"Unexpected exception:" record (its flag says
which of the two `except` clauses ran), `pathsLog` is the
"[Audio: .., Subtitle: ..]" record. -/
inductive LogEntry where
  | excLog (recognized : Bool)
  | pathsLog (audio subtitle : String)
  deriving DecidableEq, Repr

/-- What one task did: its writes into `train_data[index]` and
`labels[index]`, its error-level logs in order, and whether it returned
normally (with the returned path pair) or raised. -/
structure TaskResult (F L : Type) where
  trainWrite : Option F
  labelWrite : Option L
  logs : List LogEntry
  outcome : Except PyExc (String × String)
  deriving Repr

/-- The body shared by the two `except` clauses (trainer.py lines 244–265)
followed by the final `return` of the function: log the exception, then log the
offending paths and return the paths — but formatting `audio_file_path`
when it was never assigned raises `UnboundLocalError` out of the handler,
so the paths record is never emitted and the task raises. -/
def handleTaskExc {F L : Type} (e : PyExc) (audio_file_path : Option String)
    (subtitle_file_path : String) : TaskResult F L :=
  match audio_file_path with
  | some a =>
    { trainWrite := none, labelWrite := none,
      logs := [.excLog e.recognized, .pathsLog a subtitle_file_path],
      outcome := .ok (a, subtitle_file_path) }
  | none =>
    { trainWrite := none, labelWrite := none,
      logs := [.excLog e.recognized],
      outcome := .error .unboundLocal }

/-- Rest of the task once `audio_file_path` is assigned: the embedder call
in the `try`, the `else` clause writing both slots, and the `return`. -/
def runTaskFromAudio {F L : Type} (env : TaskEnv F L)
    (audio_file_path subtitle_file_path : String) : TaskResult F L :=
  match env.extractDataAndLabelFromAudio audio_file_path subtitle_file_path with
  | .ok (x, y) =>
    { trainWrite := some x, labelWrite := some y, logs := [],
      outcome := .ok (audio_file_path, subtitle_file_path) }
  | .error e => handleTaskExc e (some audio_file_path) subtitle_file_path

/-- One per-sample task, `Trainer.__extract_in_multithreads` (trainer.py lines
218–269). When the input is not already a recognized pure-audio format,
audio is first extracted; a failure there enters the `except` clauses with
`audio_file_path` still unassigned. Debug-level logs are omitted. -/
def runTask {F L : Type} (env : TaskEnv F L)
    (av_file_path subtitle_file_path : String) : TaskResult F L :=
  if env.isAudioPath av_file_path then
    runTaskFromAudio env av_file_path subtitle_file_path
  else
    match env.extractAudio av_file_path with
    | .ok audio_file_path =>
        runTaskFromAudio env audio_file_path subtitle_file_path
    | .error e => handleTaskExc e none subtitle_file_path

/-- The (feature, label) pair a task contributed when both its slot writes
happened. -/
def TaskResult.successPair {F L : Type} (r : TaskResult F L) :
    Option (F × L) :=
  match r.trainWrite, r.labelWrite with
  | some x, some y => some (x, y)
  | _, _ => none

/-! ## Extraction coordinator (trainer.py lines 154–216) -/

/-- Numpy concatenation `np.concatenate(ts)`: raises `ValueError` ("need at
least one array to concatenate") on an empty sequence, otherwise joins
along the first axis. -/
def npConcatenate {α : Type} (ts : List (List α)) : Except PyExc (List α) :=
  if ts.isEmpty then .error .valueError else .ok ts.flatten

/-- Outcome of the tasks submitted at trainer.py lines 177–188, one per
sample index. The thread pool is modelled by running every task to
completion: the coordinator waits on all futures at the single barrier
and each slot has exactly one writer, so the slot contents do not depend
on scheduling. -/
def taskResults {F L : Type} (env : TaskEnv F L)
    (av_file_paths subtitle_file_paths : List String) :
    List (TaskResult F L) :=
  (av_file_paths.zip subtitle_file_paths).map (fun p => runTask env p.1 p.2)

/-- The filter at trainer.py line 205: the `train_data` slots that were
written, in original index order. -/
def survivorTrainSlots {F L : Type} (env : TaskEnv F L)
    (av_file_paths subtitle_file_paths : List String) : List F :=
  ((taskResults env av_file_paths subtitle_file_paths).map
    (fun r => r.trainWrite)).reduceOption

/-- The filter at trainer.py line 206: the `labels` slots that were
written, in original index order. -/
def survivorLabelSlots {F L : Type} (env : TaskEnv F L)
    (av_file_paths subtitle_file_paths : List String) : List L :=
  ((taskResults env av_file_paths subtitle_file_paths).map
    (fun r => r.labelWrite)).reduceOption

/-- The coordinator `Trainer.__extract_data_and_label_from_avs` (trainer.py
lines 154–216): pre-allocated `train_data`/`labels` slot lists written by the
per-index tasks, `None` slots filtered out after the barrier, and the
survivors concatenated with `np.concatenate`. -/
def extractDataAndLabelFromAvs {F L : Type} (env : TaskEnv (List F) (List L))
    (av_file_paths subtitle_file_paths : List String) :
    Except PyExc (List F × List L) :=
  let train_data := survivorTrainSlots env av_file_paths subtitle_file_paths
  let labels := survivorLabelSlots env av_file_paths subtitle_file_paths
  do
    let td ← npConcatenate train_data
    let lb ← npConcatenate labels
    return (td, lb)

/-- Collaborator behaviour for the C2 failing input: the file extension is
not a recognized pure-audio format, and audio extraction raises
`UnsupportedFormatException` before `audio_file_path` is assigned. -/
def unassignedAudioEnv : TaskEnv (List Nat) (List Nat) where
  isAudioPath := fun _ => false
  extractAudio := fun _ => .error .unsupportedFormat
  extractDataAndLabelFromAudio := fun _ _ => .error .other

/-- Collaborator behaviour in which every input is already audio and the
feature embedder raises `UnsupportedFormatException` on every sample. -/
def recognizedFailEnv : TaskEnv (List Nat) (List Nat) where
  isAudioPath := fun _ => true
  extractAudio := fun p => .ok p
  extractDataAndLabelFromAudio := fun _ _ => .error .unsupportedFormat

/-! ## Numpy operations used by `Trainer.train` (trainer.py lines 116–125)

The arrays of the trainer are modelled over exact rationals: a per-sample
feature tensor is a 2-D matrix, the 3-D `train_data` array is a list of
such matrices. -/

/-- A 2-D numpy array over exact rationals. -/
abbrev Mat := List (List ℚ)

/-- The rotation `np.rot90(m, k=1, axes=(0, 1))`: one counter-clockwise
quarter turn — transpose, then reverse the row order. -/
def rot90 (m : Mat) : Mat := m.transpose.reverse

/-- Elementwise combination of two matrices of equal shape. -/
def matZipWith (f : ℚ → ℚ → ℚ) (a b : Mat) : Mat :=
  List.zipWith (List.zipWith f) a b

/-- The mean `np.mean(ms, axis=0)` for a stack of same-shape matrices. -/
def matsMean (ms : List Mat) : Mat :=
  match ms with
  | [] => []
  | h :: t =>
    (t.foldl (matZipWith (fun a b => a + b)) h).map
      (fun row => row.map (fun v => v / (ms.length : ℚ)))

/-- Zero-centering `train_data - np.mean(train_data, axis=0)` (trainer.py
line 123): subtract the per-position mean across the whole corpus from
every sample. -/
def zeroCenter (ms : List Mat) : List Mat :=
  ms.map (fun m => matZipWith (fun a b => a - b) m (matsMean ms))

/-- Numpy integer fancy indexing `xs[idx]` along the first axis:
`train_data[rand]` and `labels[rand]` at trainer.py lines 117–118. -/
def npIndex {α : Type} (xs : List α) (idx : List Nat) : List α :=
  idx.filterMap (fun i => xs.get? i)

/-- Shape component `arr.shape[1]` of a 3-D array represented as a list of
matrices. -/
def shape1 (ms : List Mat) : Nat := ((ms.head?).map List.length).getD 0

/-- Shape component `arr.shape[2]` of a 3-D array represented as a list of
matrices. -/
def shape2 (ms : List Mat) : Nat :=
  (((ms.head?).bind List.head?).map List.length).getD 0

/-! ## The two branches of `Trainer.train` (trainer.py lines 76–138) -/

/-- How `Trainer.train` obtains its network: `Network.load_model_and_weights`
(line 89) or `Network.get_lstm(input_shape)` (lines 93 and 128). -/
inductive NetworkSource where
  | loaded (model_filepath weights_filepath : String)
  | freshLstm (input_shape : Nat × Nat)
  deriving DecidableEq, Repr

/-- The training dump `training_dump.hdf5`: its two datasets `train_data`
and `labels`; label tensors stay abstract. -/
structure DumpFile (β : Type) where
  train_data : List Mat
  labels : List β

/-- Observable decisions of the resume-from-dump branch. -/
structure ResumeOutcome where
  network : NetworkSource
  fit_resume : Bool
  deriving DecidableEq, Repr

/-- The resume-from-dump branch of `Trainer.train` (trainer.py lines
84–104): with `resume` set, the saved model and weights are loaded and
fitting continues on them; otherwise a fresh LSTM is built with input
shape `(train_data_raw.shape[2], train_data_raw.shape[1])`. The datasets of the dump are passed to `fit_with_generator` together with the `resume`
flag. -/
def resumeFromDumpBranch {β : Type} (resume : Bool) (dump : DumpFile β)
    (model_filepath weights_filepath : String) : ResumeOutcome :=
  if resume then
    { network := .loaded model_filepath weights_filepath,
      fit_resume := resume }
  else
    { network := .freshLstm (shape2 dump.train_data, shape1 dump.train_data),
      fit_resume := resume }

/-- Observable result of the fresh-extraction branch: the dump written to
disk, the in-memory arrays handed to fitting, the constructed network and
the resume flag passed to `fit_and_get_history`. -/
structure FreshOutcome (β : Type) where
  dump : DumpFile β
  fit_train_data : List Mat
  fit_labels : List β
  network : NetworkSource
  fit_resume : Bool

/-- The fresh-extraction branch of `Trainer.train` after the coordinator
has returned (trainer.py lines 110–138). `training_dump.hdf5` is opened
in mode "w", truncating whatever dump existed before (`prevDump`); the
raw arrays are written into it; then the permutation `rand` (numpy draws
it over `arange(len(labels))`), the per-sample `rot90` and the
zero-centering are applied to the rebound in-memory variables only; the
network is a fresh LSTM over the transformed shape
`(train_data.shape[1], train_data.shape[2])`, and `fit_and_get_history`
receives the literal `False` as its resume flag — the branch never reads
the `resume` argument. -/
def freshExtractionBranch {β : Type} (resume : Bool)
    (prevDump : Option (DumpFile β)) (rand : List Nat)
    (train_data : List Mat) (labels : List β) : FreshOutcome β :=
  let dump : DumpFile β := { train_data := train_data, labels := labels }
  let train_data1 := npIndex train_data rand
  let labels1 := npIndex labels rand
  let train_data2 := train_data1.map rot90
  let train_data3 := zeroCenter train_data2
  { dump := dump,
    fit_train_data := train_data3,
    fit_labels := labels1,
    network := .freshLstm (shape1 train_data3, shape2 train_data3),
    fit_resume := false }

/-- Concrete feature array for the permutation-pairing witness. -/
def tdW : List Mat := [[[1]], [[2]], [[3]]]

/-- Concrete label array for the permutation-pairing witness. -/
def labW : List (List ℚ) := [[10], [20], [30]]

end Subaligner

namespace Subaligner

/-! # Theorems -/

/-- C1, as stated by the spec, is false: with both path lists present but
empty (`[]`, which is "absent/empty" in the wording of the spec but not `None`),
`Trainer.train` takes the fresh-extraction branch, not resume-from-dump. -/
theorem trainBranch_spec_refuted :
    ¬ ((trainBranch (some []) (some []) = .resumeFromDump) ↔
        (absentOrEmpty (some []) ∧ absentOrEmpty (some []))) := by
  decide

/-- C1 (amended): `Trainer.train` takes the resume-from-dump branch exactly
when at least one of the two path arguments is `None`; in particular,
whenever both lists are actual lists — even empty ones — it takes the
fresh-extraction branch. -/
theorem trainBranch_none_decision (av sub : Option (List String)) :
    (trainBranch av sub = .resumeFromDump ↔ (av = none ∨ sub = none)) ∧
    (trainBranch av sub = .freshExtraction ↔ (av ≠ none ∧ sub ≠ none)) := by
  cases av <;> cases sub <;> simp [trainBranch]

/-- C4: the `Trainer` object is not in fact frozen. The `__setattr__` and
`__delattr__` defined inside `__init__` are local functions never installed
on the class, so setting a new attribute and deleting the embedder
attribute on a constructed instance both succeed silently instead of
raising `NotImplementedError` as the docstring promises. -/
theorem trainer_not_frozen :
    pySetAttr trainerClassAttrs [("_Trainer__feature_embedder", 0)]
        "extra" 1
      = .ok [("_Trainer__feature_embedder", 0), ("extra", 1)] ∧
    pyDelAttr trainerClassAttrs [("_Trainer__feature_embedder", 0)]
        "_Trainer__feature_embedder"
      = .ok [] := by
  constructor <;> rfl

/-- C5, as stated by the spec, is false: on a single-CPU machine with no
`MAX_WORKERS` override, the worker count is `int(1 / 2) = 0`, not at
least 1. -/
theorem maxWorkers_spec_refuted :
    ¬ (1 ≤ maxWorkers none 1) := by
  decide

/-- C5 (amended): the worker count equals the operator override when one
is provided and otherwise defaults to `⌊cpuCount / 2⌋` with *no* minimum;
on a single-CPU machine the default is 0, which the thread-pool
constructor rejects with `ValueError`. -/
theorem maxWorkers_value (o : Nat) (cpuCount : Nat) :
    maxWorkers (some o) cpuCount = o ∧
    maxWorkers none cpuCount = cpuCount / 2 ∧
    threadPoolExecutorInit (maxWorkers none 1) = .error .valueError := by
  exact ⟨rfl, rfl, rfl⟩

/-- Helper: once `audio_file_path` is assigned, a task writes both slots
(on success) or neither (on any failure). -/
theorem runTaskFromAudio_slots {F L : Type} (env : TaskEnv F L)
    (a s : String) :
    ((runTaskFromAudio env a s).trainWrite = none ∧
      (runTaskFromAudio env a s).labelWrite = none) ∨
    ∃ x y, (runTaskFromAudio env a s).trainWrite = some x ∧
      (runTaskFromAudio env a s).labelWrite = some y := by
  unfold runTaskFromAudio
  cases henv : env.extractDataAndLabelFromAudio a s with
  | ok xy =>
    obtain ⟨x, y⟩ := xy
    exact Or.inr ⟨x, y, rfl, rfl⟩
  | error e =>
    exact Or.inl ⟨rfl, rfl⟩

/-- Helper: every task writes both slots or neither. -/
theorem runTask_slots {F L : Type} (env : TaskEnv F L) (av sub : String) :
    ((runTask env av sub).trainWrite = none ∧
      (runTask env av sub).labelWrite = none) ∨
    ∃ x y, (runTask env av sub).trainWrite = some x ∧
      (runTask env av sub).labelWrite = some y := by
  unfold runTask
  split
  · exact runTaskFromAudio_slots env av sub
  · split
    · exact runTaskFromAudio_slots env _ sub
    · exact Or.inl ⟨rfl, rfl⟩

/-- Helper: a result with an unwritten train slot contributed no pair. -/
theorem successPair_eq_none {F L : Type} {r : TaskResult F L}
    (h : r.trainWrite = none) : r.successPair = none := by
  unfold TaskResult.successPair
  rw [h]

/-- Helper: a result with both slots written contributed that pair. -/
theorem successPair_eq_some {F L : Type} {r : TaskResult F L} {x : F} {y : L}
    (h1 : r.trainWrite = some x) (h2 : r.labelWrite = some y) :
    r.successPair = some (x, y) := by
  unfold TaskResult.successPair
  rw [h1, h2]

/-- Helper: for a list of task results in which every result wrote both
slots or neither, zipping the filtered train slots with the filtered label
slots recovers exactly the per-sample success pairs, in original index
order. -/
theorem slots_zip_eq {F L : Type} (rs : List (TaskResult F L))
    (h : ∀ r ∈ rs, (r.trainWrite = none ∧ r.labelWrite = none) ∨
        ∃ x y, r.trainWrite = some x ∧ r.labelWrite = some y) :
    ((rs.map (fun r => r.trainWrite)).reduceOption).zip
        ((rs.map (fun r => r.labelWrite)).reduceOption)
      = rs.filterMap (fun r => r.successPair) := by
  induction rs with
  | nil => rfl
  | cons r rest ih =>
    have hrest := fun x hx => h x (List.mem_cons_of_mem r hx)
    rcases h r (List.mem_cons_self r rest) with ⟨h1, h2⟩ | ⟨x, y, h1, h2⟩
    · simp only [List.map_cons, h1, h2, List.reduceOption_cons_of_none,
        List.filterMap_cons, successPair_eq_none h1, ih hrest]
    · simp only [List.map_cons, h1, h2, List.reduceOption_cons_of_some,
        List.filterMap_cons, successPair_eq_some h1 h2, List.zip_cons_cons,
        ih hrest]

/-- C2: evaluating `Trainer.__extract_in_multithreads` on its failing
input — a non-audio file whose audio extraction raises the recognized
`UnsupportedFormatException` before `audio_file_path` is assigned. The
slot stays empty as the claim says, but the paths log of the handler is never
emitted and the task raises `UnboundLocalError` instead of completing
normally; by contrast, the same recognized failure raised by the embedder
after `audio_file_path` is assigned is logged with both paths and the
task returns normally. -/
theorem task_unbound_audio_fault :
    runTask unassignedAudioEnv "movie.mp4" "movie.srt"
      = { trainWrite := none, labelWrite := none,
          logs := [.excLog true],
          outcome := .error .unboundLocal } ∧
    runTask recognizedFailEnv "movie.wav" "movie.srt"
      = { trainWrite := none, labelWrite := none,
          logs := [.excLog true, .pathsLog "movie.wav" "movie.srt"],
          outcome := .ok ("movie.wav", "movie.srt") } := by
  exact ⟨rfl, rfl⟩

/-- C3: when every submitted sample fails extraction (here: two samples,
both hitting a recognized `UnsupportedFormatException`), all slots stay
empty and the coordinator reaches `np.concatenate([])`, which raises
`ValueError` — there is no guard detecting the zero-surviving-samples
case. -/
theorem coordinator_zero_survivors_raises :
    extractDataAndLabelFromAvs recognizedFailEnv
        ["a.wav", "b.wav"] ["a.srt", "b.srt"]
      = .error .valueError := by
  rfl

/-- C10: over any run, the feature slot of a sample is written exactly when its
label slot is written; the number of surviving samples never exceeds the
number submitted; and zipping the filtered feature slots with the filtered
label slots yields exactly the pairs of the successful samples in original index
order — the two filtered sequences are index-aligned pairwise. -/
theorem coordinator_slots_aligned {F L : Type} (env : TaskEnv F L)
    (av_file_paths subtitle_file_paths : List String) :
    (∀ r ∈ taskResults env av_file_paths subtitle_file_paths,
      r.trainWrite.isSome ↔ r.labelWrite.isSome) ∧
    (survivorTrainSlots env av_file_paths subtitle_file_paths).length
      ≤ (av_file_paths.zip subtitle_file_paths).length ∧
    (survivorTrainSlots env av_file_paths subtitle_file_paths).zip
        (survivorLabelSlots env av_file_paths subtitle_file_paths)
      = (taskResults env av_file_paths subtitle_file_paths).filterMap
          (fun r => r.successPair) := by
  refine ⟨?_, ?_, ?_⟩
  · intro r hr
    obtain ⟨p, _, rfl⟩ := List.mem_map.mp hr
    rcases runTask_slots env p.1 p.2 with ⟨h1, h2⟩ | ⟨x, y, h1, h2⟩ <;>
      simp [h1, h2]
  · calc (survivorTrainSlots env av_file_paths subtitle_file_paths).length
        ≤ ((taskResults env av_file_paths subtitle_file_paths).map
            (fun r => r.trainWrite)).length :=
          List.reduceOption_length_le _
      _ = (av_file_paths.zip subtitle_file_paths).length := by
          simp [taskResults]
  · exact slots_zip_eq _ (fun r hr => by
      obtain ⟨p, _, rfl⟩ := List.mem_map.mp hr
      exact runTask_slots env p.1 p.2)

/-- Helper: unfold fancy indexing over a cons of indices. -/
theorem npIndex_cons {α : Type} (xs : List α) (i : Nat) (rest : List Nat) :
    npIndex xs (i :: rest) =
      match xs.get? i with
      | none => npIndex xs rest
      | some a => a :: npIndex xs rest := by
  simp only [npIndex, List.filterMap_cons]
  rfl

/-- Helper: indexing with `arange(len(xs))` is the identity. -/
theorem npIndex_range {α : Type} (xs : List α) :
    npIndex xs (List.range xs.length) = xs := by
  induction xs with
  | nil => rfl
  | cons x t ih =>
    rw [List.length_cons, List.range_succ_eq_map, npIndex_cons]
    simp only [List.get?_cons_zero]
    congr 1
    unfold npIndex
    rw [List.filterMap_map]
    have hcomp : ((fun i => (x :: t).get? i) ∘ Nat.succ) =
        fun i => t.get? i := by
      funext i
      simp [List.get?_cons_succ]
    rw [hcomp]
    exact ih

/-- Helper: indexing with a permutation of `arange(len(xs))` permutes the
array. -/
theorem npIndex_perm {α : Type} (xs : List α) (rand : List Nat)
    (h : rand.Perm (List.range xs.length)) :
    (npIndex xs rand).Perm xs := by
  have h2 := h.filterMap (fun i => xs.get? i)
  have h3 : List.filterMap (fun i => xs.get? i) (List.range xs.length) = xs :=
    npIndex_range xs
  rw [h3] at h2
  exact h2

/-- Helper: over equal-length arrays, indexing both with the same index
list and zipping equals zipping first and indexing the pairs. -/
theorem npIndex_zip {α β : Type} (td : List α) (lab : List β)
    (rand : List Nat) (hlen : td.length = lab.length) :
    (npIndex td rand).zip (npIndex lab rand) = npIndex (td.zip lab) rand := by
  induction rand with
  | nil => rfl
  | cons i rest ih =>
    rw [npIndex_cons td, npIndex_cons lab, npIndex_cons (td.zip lab)]
    cases htd : td.get? i with
    | none =>
      have hi : td.length ≤ i := List.get?_eq_none.mp htd
      have hlab : lab.get? i = none := List.get?_eq_none.mpr (by omega)
      have hzip : (td.zip lab).get? i = none := by
        refine List.get?_eq_none.mpr ?_
        rw [List.length_zip]
        omega
      simp only [hlab, hzip]
      exact ih
    | some a =>
      obtain ⟨hi, -⟩ := List.get?_eq_some.mp htd
      have hilab : i < lab.length := by omega
      have hlab : lab.get? i = some (lab.get ⟨i, hilab⟩) :=
        List.get?_eq_get hilab
      have hzip : (td.zip lab).get? i = some (a, lab.get ⟨i, hilab⟩) :=
        (List.get?_zip_eq_some _ _ _ _).mpr ⟨htd, hlab⟩
      simp only [hlab, hzip, List.zip_cons_cons]
      rw [ih]

/-- C6: trainer.py lines 116–118 apply one identical permutation `rand`
to `train_data` and `labels`. Pairing invariant: zipping the two permuted
arrays equals permuting the zipped pairs (so the i-th permuted feature is
still paired with the label it was paired with before), and when `rand`
is a permutation of `arange(len(labels))` over equal-length arrays, the
multiset of (feature, label) pairs is unchanged — only reordered. -/
theorem permutation_preserves_pairing (train_data : List Mat)
    (labels : List (List ℚ)) (rand : List Nat)
    (hlen : train_data.length = labels.length)
    (hperm : rand.Perm (List.range labels.length)) :
    (npIndex train_data rand).zip (npIndex labels rand)
        = npIndex (train_data.zip labels) rand ∧
    ((npIndex train_data rand).zip (npIndex labels rand)).Perm
        (train_data.zip labels) := by
  refine ⟨npIndex_zip _ _ _ hlen, ?_⟩
  rw [npIndex_zip _ _ _ hlen]
  apply npIndex_perm
  rw [List.length_zip, hlen, min_self]
  exact hperm

/-- Witness for the permutation pairing theorem at a concrete corpus of
three samples and the permutation `[2, 0, 1]`. -/
theorem permutation_preserves_pairing_witness :
    (([2, 0, 1] : List Nat).Perm (List.range labW.length)) ∧
    ((npIndex tdW [2, 0, 1]).zip (npIndex labW [2, 0, 1])
        = npIndex (tdW.zip labW) [2, 0, 1] ∧
      ((npIndex tdW [2, 0, 1]).zip (npIndex labW [2, 0, 1])).Perm
        (tdW.zip labW)) :=
  ⟨by decide,
   permutation_preserves_pairing tdW labW [2, 0, 1] rfl (by decide)⟩

/-- C7: on a fresh-extraction run the dump holds exactly the raw
coordinator output — written before the permutation, the rotation and the
zero-centering — and the write overwrites any previous dump (the outcome
is the same for every `prevDump`); the in-memory transforms rebind the
local variables and leave the dumped datasets unchanged. -/
theorem fresh_dump_pre_transform {β : Type} (resume : Bool)
    (prevDump : Option (DumpFile β)) (rand : List Nat)
    (train_data : List Mat) (labels : List β) :
    (freshExtractionBranch resume prevDump rand train_data labels).dump
        = { train_data := train_data, labels := labels } ∧
    (freshExtractionBranch resume prevDump rand train_data
        labels).fit_train_data
        = zeroCenter ((npIndex train_data rand).map rot90) ∧
    (freshExtractionBranch resume prevDump rand train_data labels).fit_labels
        = npIndex labels rand :=
  ⟨rfl, rfl, rfl⟩

/-- C8: in the resume-from-dump branch, `resume=true` loads the saved
model and weights and continues fitting them — it never constructs a
fresh model; `resume=false` constructs a structurally fresh LSTM whose
input shape `(shape[2], shape[1])` is derived from the feature shape of the dump, reusing no prior weights. -/
theorem resume_branch_network_selection {β : Type} (dump : DumpFile β)
    (model_filepath weights_filepath : String) :
    (resumeFromDumpBranch true dump model_filepath weights_filepath).network
        = .loaded model_filepath weights_filepath ∧
    (resumeFromDumpBranch true dump model_filepath
        weights_filepath).fit_resume = true ∧
    (resumeFromDumpBranch false dump model_filepath weights_filepath).network
        = .freshLstm (shape2 dump.train_data, shape1 dump.train_data) ∧
    (resumeFromDumpBranch false dump model_filepath
        weights_filepath).fit_resume = false :=
  ⟨rfl, rfl, rfl, rfl⟩

/-- C9: on the fresh-extraction branch the `resume` argument is not
honored: for every value of `resume`, the branch constructs a new LSTM
sized to the transformed feature shape and passes the literal non-resume
flag `False` to the fitting call. -/
theorem fresh_branch_ignores_resume {β : Type} (resume : Bool)
    (prevDump : Option (DumpFile β)) (rand : List Nat)
    (train_data : List Mat) (labels : List β) :
    (freshExtractionBranch resume prevDump rand train_data labels).network
        = .freshLstm
            (shape1 (freshExtractionBranch resume prevDump rand train_data
              labels).fit_train_data,
             shape2 (freshExtractionBranch resume prevDump rand train_data
              labels).fit_train_data) ∧
    (freshExtractionBranch resume prevDump rand train_data
        labels).fit_resume = false :=
  ⟨rfl, rfl⟩

end Subaligner
